import Mathlib

/-!
Verification development for the kagi-mcp assistant core (the conversational
exchange engine): a shallow embedding of the source's pure functions and of
the assistant tool's control flow, together with theorems settling the
specification claims.

Conventions of the embedding:
* JS strings are modelled as Lean `String` / `List Char`.
* JS `null`/`undefined` distinctions are modelled with `Option` and with the
  `Json` inductive below; JS truthiness is modelled explicitly.
* External facilities that are not code of this repository (the HTTP `fetch`
  client, the host `JSON.parse`, the `uuid` package's `uuidv4`, the token
  resolver of `auth.js`) enter as explicit parameters or oracle functions.
* Machine-integer issues do not arise: the only counter is the brace depth,
  embedded as `Int`.
-/

/-- A character counted as whitespace by the JS `trim` / `\s` class (the ASCII
whitespace characters plus NBSP and the BOM; the exotic Unicode space
characters do not occur in any input considered here). -/
def jsWhite (c : Char) : Bool :=
  c = ' ' || c = '\t' || c = '\n' || c = '\r' || c = '\x0b' || c = '\x0c' ||
  c = Char.ofNat 160 || c = Char.ofNat 65279

/-- A JS line terminator (not matched by the regex dot without the `s` flag). -/
def lineTerm (c : Char) : Bool :=
  c = '\n' || c = '\r' || c = Char.ofNat 8232 || c = Char.ofNat 8233

/-- JS `String.prototype.trim` on a character list: drop whitespace from both
ends. -/
def jsTrimL (l : List Char) : List Char :=
  ((l.dropWhile jsWhite).reverse.dropWhile jsWhite).reverse

/-- JS `String.prototype.trim` on a `String`. -/
def jsTrim (s : String) : String :=
  String.mk (jsTrimL s.data)

/-- JS `text.lastIndexOf(marker)`: the greatest index at which `marker` occurs
as a prefix of the remaining text, `none` when there is no occurrence
(JS returns `-1`).  Recursion prefers an occurrence in the tail, which is the
later (greater) index. -/
def lastIndexOfL (text marker : List Char) : Option Nat :=
  match text with
  | [] => if marker.isEmpty then some 0 else none
  | _ :: rest =>
    match lastIndexOfL rest marker with
    | some i => some (i + 1)
    | none => if marker.isPrefixOf text then some 0 else none

/-- The character scan of `extractJson` (source lines 150-170), transcribed
branch for branch.  Each iteration pushes the current character, then runs the
if/else-if chain of the source: outside a string, braces move the counter and
a zero depth returns the buffer; the remaining branches (backslash with
`continue`, quote toggle) belong to the same else-if chain and are therefore
only reachable when `inString` is already true, exactly as in the source. -/
def jsonScan : List Char → Int → Bool → Bool → List Char → Option (List Char)
  | [], _, _, _, _ => none
  | c :: rest, count, inString, escape, acc =>
    let acc2 := acc ++ [c]
    if inString = false then
      if c = '{' then jsonScan rest (count + 1) inString false acc2
      else if c = '}' then
        if count - 1 = 0 then some acc2
        else jsonScan rest (count - 1) inString false acc2
      else jsonScan rest count inString false acc2
    else if c = '\\' && !escape then
      jsonScan rest count inString true acc2
    else if c = '"' && !escape then
      jsonScan rest count (!inString) false acc2
    else
      jsonScan rest count inString false acc2

/-- The part of `extractJson` after the marker has been located: find the
first brace in the trimmed tail (`lastPart.indexOf("{")`, modelled as dropping
everything before the first brace) and run the scan from it with depth 0. -/
def extractFromMarker (lastPartTail : List Char) : Option (List Char) :=
  let fromBrace := lastPartTail.dropWhile (fun c => c ≠ '{')
  if fromBrace.isEmpty then none
  else jsonScan fromBrace 0 false false []

/-- Source `extractJson` (lines 131-173) on character lists: locate the last
occurrence of the marker, trim the text after it, and run the brace scan. -/
def extractJsonL (text marker : List Char) : Option (List Char) :=
  match lastIndexOfL text marker with
  | none => none
  | some i => extractFromMarker (jsTrimL (text.drop (i + marker.length)))

/-- Source `extractJson` on `String`s (the signature of the source function). -/
def extractJson (text marker : String) : Option String :=
  (extractJsonL text.data marker.data).map (fun cs => String.mk cs)




/-- One pass of a JS `String.prototype.replace(regex, ...)` with the `g` flag:
at each position try the pattern matcher; on a match of `k` consumed
characters emit the replacement and resume after the match, otherwise copy one
character.  `matchAt` returns the replacement text and the consumed length.
Structural fuel equal to the input length is always sufficient because every
accepted match consumes at least one character (a zero-length match is treated
as no match; none of the source's patterns can match empty text). -/
def replaceScanF (matchAt : List Char → Option (List Char × Nat)) :
    Nat → List Char → List Char
  | _, [] => []
  | 0, l => l
  | fuel + 1, c :: tl =>
    match matchAt (c :: tl) with
    | some (emit, k) =>
      if k = 0 then c :: replaceScanF matchAt fuel tl
      else emit ++ replaceScanF matchAt fuel ((c :: tl).drop k)
    | none => c :: replaceScanF matchAt fuel tl

/-- Run a global-replace pass over a whole character list. -/
def replaceScan (matchAt : List Char → Option (List Char × Nat)) (l : List Char) :
    List Char :=
  replaceScanF matchAt l.length l

/-- Matcher for an alternation of literal tokens (each with its replacement).
The token sets used below are pairwise non-overlapping, so `find?` order is
immaterial. -/
def literalMatcher (toks : List (List Char × List Char)) (l : List Char) :
    Option (List Char × Nat) :=
  match toks.find? (fun t => t.1.isPrefixOf l) with
  | some t => some (t.2, t.1.length)
  | none => none

/-- Matcher for the regex `<br\s*\/?>`: after the literal `<br`, greedily skip
whitespace, then an optional slash, then the closing angle bracket. -/
def brMatch (l : List Char) : Option (List Char × Nat) :=
  match l with
  | '<' :: 'b' :: 'r' :: rest =>
    let w := (rest.takeWhile jsWhite).length
    match rest.drop w with
    | '/' :: '>' :: _ => some ("\n".data, 3 + w + 2)
    | '>' :: _ => some ("\n".data, 3 + w + 1)
    | _ => none
  | _ => none

/-- Scan for the earliest occurrence of the literal `close` token, with the
characters before it restricted to the regex dot (no line terminators unless
`dotAll`).  Returns the inner text and the number of characters consumed
through the end of the close token.  This is the lazy `(.*?)close` step. -/
def lazyLitInner (close : List Char) (dotAll : Bool) :
    List Char → List Char → Option (List Char × Nat)
  | [], _ => none
  | c :: tl, acc =>
    if close.isPrefixOf (c :: tl) then some (acc.reverse, acc.length + close.length)
    else if !dotAll && lineTerm c then none
    else lazyLitInner close dotAll tl (c :: acc)

/-- Matcher for a regex of the shape `open(.*?)close` replaced by
`pre ++ inner ++ post`. -/
def lazyLitMatch (opn close pre post : List Char) (dotAll : Bool)
    (l : List Char) : Option (List Char × Nat) :=
  if opn.isPrefixOf l then
    match lazyLitInner close dotAll (l.drop opn.length) [] with
    | some (inner, k) => some (pre ++ inner ++ post, opn.length + k)
    | none => none
  else none

/-- Matcher for the list-item regex `<li>(.*?)<\/li>` replaced by `- $1\n`
(used identically by both formatters). -/
def liMatch (l : List Char) : Option (List Char × Nat) :=
  lazyLitMatch "<li>".data "</li>".data "- ".data "\n".data false l

/-- Whether the text starts with a header close tag `</h[1-6]>` (the source's
close pattern accepts any header level, not necessarily the opening one). -/
def headerClose (l : List Char) : Bool :=
  match l with
  | '<' :: '/' :: 'h' :: d :: '>' :: _ => '1' ≤ d && d ≤ '6'
  | _ => false

/-- Lazy inner scan for the header regex: earliest `</h[1-6]>`, dot excludes
line terminators. -/
def headerInner : List Char → List Char → Option (List Char × Nat)
  | [], _ => none
  | c :: tl, acc =>
    if headerClose (c :: tl) then some (acc.reverse, acc.length + 5)
    else if lineTerm c then none
    else headerInner tl (c :: acc)

/-- Matcher for `<h([1-6])>(.*?)<\/h[1-6]>` replaced by `'#'.repeat(level)`
plus a space, the inner text, and a blank line. -/
def headerMatch (l : List Char) : Option (List Char × Nat) :=
  match l with
  | '<' :: 'h' :: d :: '>' :: tl =>
    if '1' ≤ d && d ≤ '6' then
      match headerInner tl [] with
      | some (inner, k) =>
        some (List.replicate (d.toNat - '0'.toNat) '#' ++ " ".data ++ inner ++
          "\n\n".data, 4 + k)
      | none => none
    else none
  | _ => none

/-- Earliest occurrence of a literal pattern anywhere in the text (the first
lazy dot-all gap of the code-block regex); returns the number of characters
consumed through the end of the pattern and the remaining text. -/
def firstOcc (pat : List Char) (l : List Char) : Option (Nat × List Char) :=
  if pat.isPrefixOf l then some (pat.length, l.drop pat.length)
  else
    match l with
    | [] => none
    | _ :: tl =>
      match firstOcc pat tl with
      | some (n, rest) => some (n + 1, rest)
      | none => none

/-- Matcher for the fenced-code-block regex (with the `s` flag)
`<div class="codehilite">.*?<pre><span><\/span><code>(.*?)<\/code><\/pre><\/div>`
replaced by a triple-backtick fence around the captured group. -/
def codehiliteMatch (l : List Char) : Option (List Char × Nat) :=
  let opn := "<div class=\"codehilite\">".data
  let mid := "<pre><span></span><code>".data
  let cls := "</code></pre></div>".data
  if opn.isPrefixOf l then
    match firstOcc mid (l.drop opn.length) with
    | some (n1, afterMid) =>
      match lazyLitInner cls true afterMid [] with
      | some (inner, k2) =>
        some ("```\n".data ++ inner ++ "\n```\n".data, opn.length + n1 + k2)
      | none => none
    | none => none
  else none

/-- Matcher for the tag-stripping regex `<[^>]+>`: an angle bracket, one or
more non-bracket characters, a closing angle bracket; replaced by nothing. -/
def tagMatch (l : List Char) : Option (List Char × Nat) :=
  match l with
  | '<' :: tl =>
    let body := (tl.takeWhile (fun c => c ≠ '>')).length
    if body = 0 then none
    else
      match tl.drop body with
      | '>' :: _ => some ([], 1 + body + 1)
      | _ => none
  | _ => none

/-- Matcher for `\n{3,}` replaced by exactly two newlines (greedy maximal
run). -/
def nlRunMatch (l : List Char) : Option (List Char × Nat) :=
  let run := (l.takeWhile (fun c => c = '\n')).length
  if 3 ≤ run then some ("\n\n".data, run) else none

/-- Matcher for `\s+` replaced by a single space (greedy maximal run). -/
def wsRunMatch (l : List Char) : Option (List Char × Nat) :=
  let run := (l.takeWhile jsWhite).length
  if 1 ≤ run then some (" ".data, run) else none

/-- The literal-token pass of `htmlToPlain`'s first rule
`<\/?(p|h[1-6]|div)>` replaced by a newline. -/
def plainBlockToks : List (List Char × List Char) :=
  [("<p>".data, "\n".data), ("</p>".data, "\n".data),
   ("<h1>".data, "\n".data), ("</h1>".data, "\n".data),
   ("<h2>".data, "\n".data), ("</h2>".data, "\n".data),
   ("<h3>".data, "\n".data), ("</h3>".data, "\n".data),
   ("<h4>".data, "\n".data), ("</h4>".data, "\n".data),
   ("<h5>".data, "\n".data), ("</h5>".data, "\n".data),
   ("<h6>".data, "\n".data), ("</h6>".data, "\n".data),
   ("<div>".data, "\n".data), ("</div>".data, "\n".data)]

/-- Source `htmlToPlain` (lines 92-105): the six replacement passes in source
order, then `trim`. -/
def htmlToPlain (html : String) : String :=
  let s1 := replaceScan (literalMatcher plainBlockToks) html.data
  let s2 := replaceScan brMatch s1
  let s3 := replaceScan liMatch s2
  let s4 := replaceScan tagMatch s3
  let s5 := replaceScan nlRunMatch s4
  let s6 := replaceScan wsRunMatch s5
  String.mk (jsTrimL s6)

/-- Source `htmlToMarkdown` (lines 56-87): every replacement pass in source
order, then `trim`.  Singleton literal passes mirror the source's separate
`.replace` calls. -/
def htmlToMarkdown (html : String) : String :=
  let s1 := replaceScan headerMatch html.data
  let s2 := replaceScan
    (lazyLitMatch "<strong>".data "</strong>".data "**".data "**".data false) s1
  let s3 := replaceScan
    (lazyLitMatch "<em>".data "</em>".data "*".data "*".data false) s2
  let s4 := replaceScan codehiliteMatch s3
  let s5 := replaceScan
    (lazyLitMatch "<code>".data "</code>".data "`".data "`".data false) s4
  let s6 := replaceScan (literalMatcher [("<ol>".data, [])]) s5
  let s7 := replaceScan (literalMatcher [("</ol>".data, "\n".data)]) s6
  let s8 := replaceScan (literalMatcher [("<ul>".data, [])]) s7
  let s9 := replaceScan (literalMatcher [("</ul>".data, "\n".data)]) s8
  let s10 := replaceScan liMatch s9
  let s11 := replaceScan (literalMatcher [("<p></p>".data, [])]) s10
  let s12 := replaceScan
    (lazyLitMatch "<p>".data "</p>".data [] "\n\n".data false) s11
  let s13 := replaceScan brMatch s12
  let s14 := replaceScan tagMatch s13
  let s15 := replaceScan (literalMatcher [("&lt;".data, "<".data)]) s14
  let s16 := replaceScan (literalMatcher [("&gt;".data, ">".data)]) s15
  let s17 := replaceScan (literalMatcher [("&quot;".data, "\"".data)]) s16
  let s18 := replaceScan (literalMatcher [("&#x27;".data, "\x27".data)]) s17
  let s19 := replaceScan (literalMatcher [("&amp;".data, "&".data)]) s18
  let s20 := replaceScan nlRunMatch s19
  String.mk (jsTrimL s20)

/-- Source `formatResponse` (lines 110-121): switch on the requested format,
defaulting to markdown. -/
def formatResponse (html : String) (format : String) : String :=
  if format = "html" then html
  else if format = "markdown" then htmlToMarkdown html
  else if format = "plain" then htmlToPlain html
  else htmlToMarkdown html



/-- JSON values as produced by the host `JSON.parse` (modelled as an oracle
function below).  `undefined` is not a JSON value; absent object members are
modelled with `Option` at the access sites. -/
inductive Json where
  | null : Json
  | bool (b : Bool) : Json
  | num (n : Int) : Json
  | str (s : String) : Json
  | arr (elems : List Json) : Json
  | obj (fields : List (String × Json)) : Json

/-- JS truthiness of a JSON value (`if (v)`). -/
def jsTruthy (v : Json) : Bool :=
  match v with
  | Json.null => false
  | Json.bool b => b
  | Json.num n => !(n = 0)
  | Json.str s => !(s = "")
  | Json.arr _ => true
  | Json.obj _ => true

/-- JS truthiness of a possibly-undefined value. -/
def jsTruthyOpt (v : Option Json) : Bool :=
  match v with
  | none => false
  | some w => jsTruthy w

/-- Member lookup in a parsed object (`JSON.parse` yields unique keys). -/
def jsLookup (fields : List (String × Json)) (k : String) : Option Json :=
  match fields.find? (fun f => f.1 = k) with
  | some f => some f.2
  | none => none

/-- JS member access `v.k`: a lookup on objects, `undefined` on the remaining
primitives, and a thrown `TypeError` on `null`. -/
def jsMember (v : Json) (k : String) : Except String (Option Json) :=
  match v with
  | Json.null =>
    Except.error ("Cannot read properties of null (reading \x27" ++ k ++ "\x27)")
  | Json.obj fields => Except.ok (jsLookup fields k)
  | _ => Except.ok none

/-- JS strict comparison `v === "done"` on a possibly-undefined value. -/
def isDoneStr (v : Option Json) : Bool :=
  match v with
  | some (Json.str s) => s = "done"
  | _ => false

/-- Truthiness of a `process.env` entry (absent or empty string is falsy). -/
def envTruthy (v : Option String) : Bool :=
  match v with
  | none => false
  | some s => !(s = "")

/-- The configuration values the assistant reads.  `token` stands for the
result of `resolveToken` (the `auth.js` helper, an external collaborator that
resolves the session credential); the other three are the raw environment
variables. -/
structure Env where
  token : Option String
  searchCookie : Option String
  modelList : Option String
  defaultModel : Option String

/-- Error message of `getAvailableModels` for a missing model list. -/
def kagiModelListErrorMsg : String :=
  "KAGI_MODEL_LIST environment variable not set. Please provide a comma-separated list of available models (e.g., \x27o3-pro,claude-4-sonnet,gemini-2-5-pro\x27)"

/-- JS `s.split(",")` on a character list: the comma-separated fields, empty
fields preserved. -/
def splitCommaL : List Char → List (List Char)
  | [] => [[]]
  | c :: tl =>
    let r := splitCommaL tl
    if c = ',' then [] :: r
    else (c :: r.headD []) :: r.tail

/-- Source `getAvailableModels` (lines 24-32): throw when the variable is
falsy (unset or empty), otherwise split on commas, trim entries, and drop the
empty ones. -/
def getAvailableModels (modelList : Option String) : Except String (List String) :=
  match modelList with
  | none => Except.error kagiModelListErrorMsg
  | some s =>
    if s = "" then Except.error kagiModelListErrorMsg
    else Except.ok ((((splitCommaL s.data).map (fun m => jsTrimL m)).filter
      (fun m => 0 < m.length)).map (fun m => String.mk m))

/-- Source `getDefaultModel` (lines 11-19): the configured default when
truthy, else the first entry of the available models (`undefined`, modelled
as `none`, when that list is empty). -/
def getDefaultModel (env : Env) : Except String (Option String) :=
  if envTruthy env.defaultModel then Except.ok env.defaultModel
  else (getAvailableModels env.modelList).map (fun ms => ms.head?)

/-- The caller-supplied arguments of the assistant tool.  `model = none`
models an omitted argument, which makes the JS default parameter
`getDefaultModel()` run before the body's try/catch. -/
structure AssistantArgs where
  prompt : String
  new_conversation : Bool
  model : Option String
  internet_access : Bool
  format : String

/-- The focus block of the outbound payload.  `thread_id` is always present on
the wire (holding JSON null for a fresh thread); `message_id` is only added
for a continuation. -/
structure FocusBlock where
  thread_id : Json
  branch_id : String
  prompt : String
  message_id : Option String

/-- The profile block of the outbound payload. -/
structure ProfileBlock where
  id : Option String
  personalizations : Bool
  internet_access : Bool
  model : Option String
  lens_id : Option String

/-- The threads descriptor of the outbound payload. -/
structure ThreadsDescriptor where
  tag_ids : List String
  saved : Bool
  shared : Bool

/-- The outbound payload of one exchange. -/
structure RequestData where
  focus : FocusBlock
  profile : ProfileBlock
  threads : List ThreadsDescriptor

/-- Source `buildRequestData` (lines 183-206).  The session's `threadId` and
the `uuidv4()` value generated for this call are explicit parameters. -/
def buildRequestData (prompt : String) (model : Option String)
    (internetAccess : Bool) (threadId : Json) (freshUuid : String) :
    RequestData :=
  { focus :=
      { thread_id := threadId
        branch_id := "00000000-0000-4000-0000-000000000000"
        prompt := prompt
        message_id := if jsTruthy threadId then some freshUuid else none }
    profile :=
      { id := none
        personalizations := true
        internet_access := internetAccess
        model := model
        lens_id := none }
    threads := [{ tag_ids := [], saved := false, shared := false }] }

/-- The session update of lines 254-257: starting a new conversation clears
the stored thread identifier before the payload is built. -/
def effectiveThreadId (newConversation : Bool) (session : Json) : Json :=
  if newConversation then Json.null else session

/-- The raw HTTP response the transport yields (`fetch` result plus the
awaited body text). -/
structure HttpResponse where
  ok : Bool
  status : Nat
  statusText : String
  body : String

/-- One item of the MCP tool result content. -/
structure ContentItem where
  type : String
  text : String
deriving DecidableEq

/-- The MCP tool result returned to the caller. -/
structure ToolResult where
  content : List ContentItem
deriving DecidableEq

/-- Source `formatError` of the formatting utilities: thrown errors carry a
message string; an empty message falls back to the bare class name that
`toString` would print. -/
def formatError (msg : String) : String :=
  "Error: " ++ (if msg = "" then "Error" else msg)

/-- Error message thrown for a missing session token (lines 235-239). -/
def tokenErrorMsg : String :=
  "KAGI_SESSION_TOKEN environment variable not set. Please set it before running."

/-- Error message thrown for a missing search cookie (lines 241-245). -/
def cookieErrorMsg : String :=
  "KAGI_SEARCH_COOKIE environment variable not set. Please set it to your _kagi_search_ cookie value."

/-- JS string interpolation of the model value (an omitted model that
defaulted to `undefined` prints as the text `undefined`). -/
def jsShowModel (m : Option String) : String :=
  match m with
  | some s => s
  | none => "undefined"

/-- Error message thrown for a model outside the allow-list (lines 248-252). -/
def invalidModelMsg (m : Option String) (models : List String) : String :=
  "Invalid model \"" ++ jsShowModel m ++ "\". Available models: " ++
    String.intercalate ", " models

/-- Whether `availableModels.includes(model)` holds. -/
def modelIncluded (models : List String) (m : Option String) : Bool :=
  match m with
  | some s => models.contains s
  | none => false

/-- The thread-document step of lines 301-312: extract the thread JSON,
parse it, and advance the session when the document carries a truthy `id`.
Both a parse failure and the `TypeError` of a member access on null are
swallowed by the inner catch (only a console warning), leaving the session
unchanged. -/
def updateThreadFromResponse (session : Json) (parse : String → Option Json)
    (responseText : String) : Json :=
  match extractJson responseText "thread.json:" with
  | none => session
  | some tj =>
    match parse tj with
    | none => session
    | some td =>
      match jsMember td "id" with
      | Except.error _ => session
      | Except.ok none => session
      | Except.ok (some v) => if jsTruthy v then v else session

/-- The body of `kagiAssistant` inside the try block (lines 226-339), with the
resolved model value already bound.  Returns the session state as mutated so
far together with either the MCP result or the thrown error's message.
`transport` models `fetch` plus `response.text()`, `parse` models
`JSON.parse`, `uuid` the `uuidv4()` value of this call.  The pure header
construction of lines 263-279 does not influence any observable modelled
here and is not transcribed. -/
def kagiAssistantTry (args : AssistantArgs) (env : Env) (model : Option String)
    (transport : RequestData → Except String HttpResponse)
    (parse : String → Option Json) (uuid : String) (session : Json) :
    Json × Except String ToolResult :=
  if args.prompt = "" then
    (session, Except.error "Assistant called with no prompt.")
  else
    match getAvailableModels env.modelList with
    | Except.error e => (session, Except.error e)
    | Except.ok availableModels =>
      if envTruthy env.token = false then (session, Except.error tokenErrorMsg)
      else if envTruthy env.searchCookie = false then
        (session, Except.error cookieErrorMsg)
      else if modelIncluded availableModels model = false then
        (session, Except.error (invalidModelMsg model availableModels))
      else
        let session1 := effectiveThreadId args.new_conversation session
        let requestData :=
          buildRequestData args.prompt model args.internet_access session1 uuid
        match transport requestData with
        | Except.error e => (session1, Except.error e)
        | Except.ok response =>
          if response.ok = false then
            (session1, Except.error
              (if response.status = 401 || response.status = 403 then
                "Invalid or expired session token"
              else "HTTP " ++ toString response.status ++ ": " ++
                response.statusText))
          else
            let session2 :=
              updateThreadFromResponse session1 parse response.body
            match extractJson response.body "new_message.json:" with
            | none =>
              (session2, Except.error "Failed to parse assistant response")
            | some messageJson =>
              match parse messageJson with
              | none =>
                (session2, Except.error "Failed to parse message JSON response")
              | some messageData =>
                match jsMember messageData "state" with
                | Except.error e => (session2, Except.error e)
                | Except.ok st =>
                  if isDoneStr st then
                    match jsMember messageData "reply" with
                    | Except.error e => (session2, Except.error e)
                    | Except.ok reply =>
                      if jsTruthyOpt reply then
                        match reply with
                        | some (Json.str r) =>
                          (session2, Except.ok
                            { content := [{ type := "text"
                                            text := formatResponse r args.format }] })
                        | _ =>
                          (session2, Except.error
                            "messageData.reply.replace is not a function")
                      else
                        (session2, Except.error
                          "Assistant response not in expected format")
                  else
                    (session2, Except.error
                      "Assistant response not in expected format")

/-- Resolution of the `model` parameter's default (line 222): the JS default
parameter `model = getDefaultModel()` runs only when the argument is omitted,
and it runs before the body's try/catch. -/
def resolveModelParam (args : AssistantArgs) (env : Env) :
    Except String (Option String) :=
  match args.model with
  | some m => Except.ok (some m)
  | none => getDefaultModel env

/-- Source `kagiAssistant` (lines 219-350).  The outer `Except.error` models
an error escaping the tool call (the async function's promise rejecting);
`Except.ok` is the MCP result handed to the caller.  All errors thrown inside
the try body are converted by the catch block into a single text content item
via `formatError`; an error thrown by the default-parameter evaluation of
`model` happens before the try block and escapes. -/
def kagiAssistant (args : AssistantArgs) (env : Env)
    (transport : RequestData → Except String HttpResponse)
    (parse : String → Option Json) (uuid : String) (session : Json) :
    Json × Except String ToolResult :=
  match resolveModelParam args env with
  | Except.error e => (session, Except.error e)
  | Except.ok model =>
    match kagiAssistantTry args env model transport parse uuid session with
    | (s, Except.ok result) => (s, Except.ok result)
    | (s, Except.error e) =>
      (s, Except.ok { content := [{ type := "text", text := formatError e }] })

example : extractJson "noise new_message.json: \x7b\"state\":\"done\"\x7d tail"
    "new_message.json:" = some "\x7b\"state\":\"done\"\x7d" := by decide

example : extractJson "a new_message.json: \x7bx new_message.json: \x7b\"a\":1\x7d"
    "new_message.json:" = some "\x7b\"a\":1\x7d" := by decide

example : extractJson "nothing here" "new_message.json:" = none := by decide

example : htmlToPlain "<ul><li>a</li><li>b</li></ul>" = "- a - b" := by decide

example : htmlToMarkdown "<p>Hello <strong>world</strong></p>" =
    "Hello **world**" := by decide

/-- The scan of a text with a prefix occurrence of the marker always finds an
occurrence (`lastIndexOf` cannot miss it). -/
theorem lastIndexOfL_isSome_of_starts (t m : List Char)
    (h : m.isPrefixOf t = true) : (lastIndexOfL t m).isSome = true := by
  cases t with
  | nil =>
    have hm : m = [] := by
      cases m with
      | nil => rfl
      | cons c tl => simp [List.isPrefixOf] at h
    subst hm
    simp [lastIndexOfL]
  | cons c rest =>
    unfold lastIndexOfL
    cases hr : lastIndexOfL rest m with
    | some i => simp
    | none => simp [h]

/-- Prepending text shifts the last occurrence index by the prepended
length whenever the suffix already contains an occurrence. -/
theorem lastIndexOfL_append (a rest m : List Char) (k : Nat)
    (h : lastIndexOfL rest m = some k) :
    lastIndexOfL (a ++ rest) m = some (a.length + k) := by
  induction a with
  | nil => simpa using h
  | cons c a ih =>
    simp only [List.cons_append]
    unfold lastIndexOfL
    rw [ih]
    simp only [List.length_cons, Option.some.injEq]
    omega

/-- C7: for every raw text in which the marker string occurs multiple times,
the parser considers only the content after the last occurrence of the
marker: arbitrary text before a final marker occurrence (in particular
earlier marker occurrences and whatever follows them) never changes the
extraction result. -/
theorem extractJson_last_marker_only (noise b marker : String) :
    extractJson (noise ++ marker ++ b) marker = extractJson (marker ++ b) marker := by
  unfold extractJson
  have hdata : (noise ++ marker ++ b).data =
      noise.data ++ (marker.data ++ b.data) := by
    simp [String.data_append]
  have hdata2 : (marker ++ b).data = marker.data ++ b.data := by
    simp [String.data_append]
  rw [hdata, hdata2]
  have hpre : marker.data.isPrefixOf (marker.data ++ b.data) = true := by
    rw [ List.isPrefixOf_iff_prefix]
    exact List.prefix_append _ _
  obtain ⟨k, hk⟩ :=
    Option.isSome_iff_exists.mp (lastIndexOfL_isSome_of_starts _ _ hpre)
  rw [show extractJsonL (noise.data ++ (marker.data ++ b.data)) marker.data =
      extractFromMarker (jsTrimL ((noise.data ++ (marker.data ++ b.data)).drop
        (noise.data.length + k + marker.data.length))) by
    rw [extractJsonL, lastIndexOfL_append _ _ _ _ hk]]
  rw [show extractJsonL (marker.data ++ b.data) marker.data =
      extractFromMarker (jsTrimL ((marker.data ++ b.data).drop
        (k + marker.data.length))) by rw [extractJsonL, hk]]
  rw [Nat.add_assoc, List.drop_append]

/-- C1: evaluation of the source's extraction scan on a response whose JSON
contains a brace inside a string literal.  For the document whose text is
`\x7b"a":"\x7d"\x7d` the scan stops at the closing brace inside the string
literal and returns the truncated text `\x7b"a":"\x7d`, and for the document
`\x7b"a":"\x7b"\x7d` the opening brace inside the string literal leaves the
counter positive so the scan returns nothing: the in-string branches of the
source are part of the same else-if chain as the brace branches and are
unreachable while outside a string, so the brace-depth counter IS affected by
braces inside string literals, contradicting the claim (and the evident
intent of the scan's `inString`/`escape` machinery). -/
theorem extractJson_brace_in_string_bug :
    extractJson "new_message.json: \x7b\"a\":\"\x7d\"\x7d" "new_message.json:" =
      some "\x7b\"a\":\"\x7d" ∧
    extractJson "new_message.json: \x7b\"a\":\"\x7b\"\x7d" "new_message.json:" =
      none := by
  exact ⟨by decide, by decide⟩

/-- C2 counterexample: on the claimed input the plain formatter does not
return the two-line text "- a\n- b": the final whitespace-collapsing pass of
the source replaces every whitespace run, newlines included, by a single
space. -/
theorem htmlToPlain_list_newline_cex :
    htmlToPlain "<ul><li>a</li><li>b</li></ul>" ≠ "- a\n- b" := by decide

/-- C2 amended: for the input markup `<ul><li>a</li><li>b</li></ul>` with the
plain output format the formatter returns exactly "- a - b" (list items
prefixed with "- ", separated by single spaces on one line, because the
whitespace-collapsing pass turns the newline after each item into a
space). -/
theorem htmlToPlain_list_single_line :
    htmlToPlain "<ul><li>a</li><li>b</li></ul>" = "- a - b" := by decide

/-- C9: for every markup string, the verbatim output representation (the
source's `html` format) passes the reply through unchanged. -/
theorem formatResponse_html_verbatim (x : String) : formatResponse x "html" = x := by
  simp [formatResponse]

/-- C5: given a new conversation, the built payload carries no thread
identifier (the `thread_id` wire field holds JSON null) and no message
identifier, regardless of the prior session state. -/
theorem buildRequestData_new_conversation_no_ids (p : String) (m : Option String)
    (ia : Bool) (prior : Json) (u : String) :
    (buildRequestData p m ia (effectiveThreadId true prior) u).focus.thread_id =
      Json.null ∧
    (buildRequestData p m ia (effectiveThreadId true prior) u).focus.message_id =
      none := by
  simp [buildRequestData, effectiveThreadId, jsTruthy]

/-- C4: the built payload contains a `message_id` field if and only if the
session holds a thread identifier, for every session value reachable in the
source (null, or the truthy value stored by the thread-document update); and
given `newConversation = false` with the session holding identifier `T`, the
payload's `thread_id` is `T` and its `message_id` is the uuid freshly
generated for this call. -/
theorem buildRequestData_message_id_iff (p : String) (m : Option String)
    (ia : Bool) (tid : Json) (u T : String)
    (hinv : tid = Json.null ∨ jsTruthy tid = true) (hT : T ≠ "") :
    (((buildRequestData p m ia tid u).focus.message_id).isSome = true ↔
      ¬ tid = Json.null) ∧
    (buildRequestData p m ia (effectiveThreadId false (Json.str T)) u).focus.thread_id =
      Json.str T ∧
    (buildRequestData p m ia (effectiveThreadId false (Json.str T)) u).focus.message_id =
      some u := by
  refine ⟨?_, ?_, ?_⟩
  · rcases hinv with h | h
    · subst h
      simp [buildRequestData, jsTruthy]
    · constructor
      · intro _ hn
        subst hn
        simp [jsTruthy] at h
      · intro _
        simp [buildRequestData, h]
  · simp [buildRequestData, effectiveThreadId]
  · simp [buildRequestData, effectiveThreadId, jsTruthy, hT]

/-- Witness for C4 at concrete inputs: the empty session builds no message
identifier, and a session holding "T" with a continued conversation places
"T" and the fresh uuid in the payload. -/
theorem buildRequestData_message_id_iff_witness :
    ((((buildRequestData "p" none true Json.null "u").focus.message_id).isSome = true ↔
      ¬ (Json.null = Json.null)) ∧
    (buildRequestData "p" none true (effectiveThreadId false (Json.str "T")) "u").focus.thread_id =
      Json.str "T" ∧
    (buildRequestData "p" none true (effectiveThreadId false (Json.str "T")) "u").focus.message_id =
      some "u") :=
  buildRequestData_message_id_iff "p" none true Json.null "u" "T" (Or.inl rfl)
    (by decide)

/-- Every successful outcome of the try body is a single text content item
(the only `return` inside the try block builds exactly that shape). -/
theorem kagiAssistantTry_ok_text (args : AssistantArgs) (env : Env)
    (model : Option String)
    (transport : RequestData → Except String HttpResponse)
    (parse : String → Option Json) (uuid : String) (session s : Json)
    (r : ToolResult)
    (h : kagiAssistantTry args env model transport parse uuid session =
      (s, Except.ok r)) :
    ∃ t, r = { content := [{ type := "text", text := t }] } := by
  unfold kagiAssistantTry at h
  repeat' split at h
  all_goals try simp_all
  rcases htr : transport (buildRequestData args.prompt model args.internet_access
      (effectiveThreadId args.new_conversation session) uuid) with e | response
  all_goals rw [htr] at h
  all_goals repeat' split at h
  all_goals simp_all
  all_goals exact ⟨_, h.2.symm⟩

/-- C3 counterexample: with the model argument omitted and neither
KAGI_MODEL_LIST nor KAGI_DEFAULT_MODEL configured, the default-parameter
evaluation `model = getDefaultModel()` runs before the body's try/catch and
its error escapes the tool boundary (the async call rejects instead of
resolving to a text result), falsifying the claim that no error is ever
thrown past the tool boundary. -/
theorem kagiAssistant_default_model_reject_cex :
    (kagiAssistant (AssistantArgs.mk "hi" true none true "markdown")
      (Env.mk none none none none)
      (fun _ => Except.error "network down") (fun _ => none) "u" Json.null).2 =
      Except.error kagiModelListErrorMsg ∧
    ¬ ∃ t, (kagiAssistant (AssistantArgs.mk "hi" true none true "markdown")
      (Env.mk none none none none)
      (fun _ => Except.error "network down") (fun _ => none) "u" Json.null).2 =
      Except.ok { content := [{ type := "text", text := t }] } := by
  constructor
  · rfl
  · rintro ⟨t, ht⟩
    rw [show (kagiAssistant (AssistantArgs.mk "hi" true none true "markdown")
      (Env.mk none none none none)
      (fun _ => Except.error "network down") (fun _ => none) "u" Json.null).2 =
      Except.error kagiModelListErrorMsg from rfl] at ht
    exact Except.noConfusion ht

/-- C3 amended: whenever the model parameter's default resolution does not
throw (in particular whenever a model argument is supplied), every error
arising during the exchange terminates the call and is returned to the caller
as a single human-readable text content item; no error is thrown past the
tool boundary. -/
theorem kagiAssistant_errors_returned_as_text (args : AssistantArgs) (env : Env)
    (transport : RequestData → Except String HttpResponse)
    (parse : String → Option Json) (uuid : String) (session : Json)
    (h : ∃ mv, resolveModelParam args env = Except.ok mv) :
    ∃ s t, kagiAssistant args env transport parse uuid session =
      (s, Except.ok { content := [{ type := "text", text := t }] }) := by
  obtain ⟨mv, hmv⟩ := h
  rcases htry : kagiAssistantTry args env mv transport parse uuid session with ⟨s, r⟩
  cases r with
  | ok result =>
    obtain ⟨t, ht⟩ :=
      kagiAssistantTry_ok_text args env mv transport parse uuid session s result htry
    exact ⟨s, t, by simp only [kagiAssistant, hmv, htry, ht]⟩
  | error e =>
    exact ⟨s, formatError e, by simp only [kagiAssistant, hmv, htry]⟩

/-- Witness for C3 at a concrete input: a supplied model together with a
failing transport still yields a single text result. -/
theorem kagiAssistant_errors_returned_as_text_witness :
    ∃ s t, kagiAssistant (AssistantArgs.mk "hi" true (some "a") true "markdown")
      (Env.mk (some "tok") (some "ck") (some "a") none)
      (fun _ => Except.error "network down") (fun _ => none) "u" Json.null =
      (s, Except.ok { content := [{ type := "text", text := t }] }) :=
  kagiAssistant_errors_returned_as_text _ _ _ _ _ _ ⟨some "a", rfl⟩

/-- C6: whenever the configured model allow-list variable is unset or empty,
`getAvailableModels` fails with the configuration error, and for every
requested-model argument the call surfaces exactly that configuration error:
as the returned error text when the throw happens inside the try body, or as
the escaping rejection when the default-parameter resolution itself throws. -/
theorem model_resolution_config_error (args : AssistantArgs) (env : Env)
    (transport : RequestData → Except String HttpResponse)
    (parse : String → Option Json) (uuid : String) (session : Json)
    (hp : args.prompt ≠ "")
    (h : env.modelList = none ∨ env.modelList = some "") :
    getAvailableModels env.modelList = Except.error kagiModelListErrorMsg ∧
    ((kagiAssistant args env transport parse uuid session).2 =
        Except.error kagiModelListErrorMsg ∨
      (kagiAssistant args env transport parse uuid session).2 =
        Except.ok (ToolResult.mk
          [ContentItem.mk "text" (formatError kagiModelListErrorMsg)])) := by
  have hga : getAvailableModels env.modelList =
      Except.error kagiModelListErrorMsg := by
    rcases h with h | h <;> simp [getAvailableModels, h]
  refine ⟨hga, ?_⟩
  cases hm : args.model with
  | some m =>
    right
    simp only [kagiAssistant, resolveModelParam, hm, kagiAssistantTry, hp, hga]
    simp [hp]
  | none =>
    by_cases hd : envTruthy env.defaultModel = true
    · right
      simp only [kagiAssistant, resolveModelParam, hm, getDefaultModel, hd,
        if_pos, kagiAssistantTry, hga]
      simp [hp, hga]
    · left
      simp only [kagiAssistant, resolveModelParam, hm, getDefaultModel, hga]
      simp [hd, Except.map]

/-- Witness for C6 at a concrete input: an unset model list with a supplied
model argument yields the configuration error. -/
theorem model_resolution_config_error_witness :
    getAvailableModels (Env.mk none none none none).modelList =
      Except.error kagiModelListErrorMsg ∧
    ((kagiAssistant (AssistantArgs.mk "hi" true (some "x") true "markdown")
        (Env.mk none none none none)
        (fun _ => Except.error "network down") (fun _ => none) "u" Json.null).2 =
        Except.error kagiModelListErrorMsg ∨
      (kagiAssistant (AssistantArgs.mk "hi" true (some "x") true "markdown")
        (Env.mk none none none none)
        (fun _ => Except.error "network down") (fun _ => none) "u" Json.null).2 =
        Except.ok (ToolResult.mk
          [ContentItem.mk "text" (formatError kagiModelListErrorMsg)])) :=
  model_resolution_config_error _ _ _ _ _ _ (by decide) (Or.inl rfl)

/-- C8: when a requested model is supplied and is not a member of the
configured allow-list, the call fails with the validation error whose message
names the allowed set of models (their comma-separated join), returned to the
caller as the tool's error text with the session untouched. -/
theorem invalid_model_validation_error (args : AssistantArgs) (env : Env)
    (transport : RequestData → Except String HttpResponse)
    (parse : String → Option Json) (uuid : String) (session : Json)
    (m : String) (models : List String)
    (hp : args.prompt ≠ "") (hm : args.model = some m)
    (hms : getAvailableModels env.modelList = Except.ok models)
    (htok : envTruthy env.token = true) (hck : envTruthy env.searchCookie = true)
    (hnot : models.contains m = false) :
    kagiAssistant args env transport parse uuid session =
      (session, Except.ok (ToolResult.mk [ContentItem.mk "text"
        (formatError ("Invalid model \"" ++ m ++ "\". Available models: " ++
          String.intercalate ", " models))])) := by
  simp only [kagiAssistant, resolveModelParam, hm, kagiAssistantTry, hms, htok,
    hck, modelIncluded, hnot, invalidModelMsg, jsShowModel]
  simp [hp]

/-- Witness for C8 at a concrete input: the model "c" against the configured
allow-list "a,b" produces the validation error text naming "a, b". -/
theorem invalid_model_validation_error_witness :
    kagiAssistant (AssistantArgs.mk "hi" true (some "c") true "markdown")
      (Env.mk (some "tok") (some "ck") (some "a,b") none)
      (fun _ => Except.error "network down") (fun _ => none) "u" Json.null =
      (Json.null, Except.ok (ToolResult.mk [ContentItem.mk "text"
        (formatError ("Invalid model \"" ++ "c" ++ "\". Available models: " ++
          String.intercalate ", " ["a", "b"]))])) :=
  invalid_model_validation_error _ _ _ _ _ _ "c" ["a", "b"] (by decide) rfl
    (by rfl) rfl rfl (by decide)

/-- C10: when the parsed message document has state "done" but its reply
field is present and equal to the empty string, the exchange takes the
response-not-in-expected-format error branch (the empty reply is falsy, so
the success condition fails) and fails with that error text instead of
returning an empty formatted reply. -/
theorem empty_reply_not_expected_format (args : AssistantArgs) (env : Env)
    (transport : RequestData → Except String HttpResponse)
    (parse : String → Option Json) (uuid : String) (session : Json)
    (m : String) (models : List String) (resp : HttpResponse)
    (mj : String) (md : Json)
    (hp : args.prompt ≠ "") (hm : args.model = some m)
    (hms : getAvailableModels env.modelList = Except.ok models)
    (htok : envTruthy env.token = true) (hck : envTruthy env.searchCookie = true)
    (hin : models.contains m = true)
    (htr : ∀ rd, transport rd = Except.ok resp) (hok : resp.ok = true)
    (hmj : extractJson resp.body "new_message.json:" = some mj)
    (hparse : parse mj = some md)
    (hst : jsMember md "state" = Except.ok (some (Json.str "done")))
    (hrep : jsMember md "reply" = Except.ok (some (Json.str ""))) :
    (kagiAssistant args env transport parse uuid session).2 =
      Except.ok (ToolResult.mk [ContentItem.mk "text"
        (formatError "Assistant response not in expected format")]) := by
  simp only [kagiAssistant, resolveModelParam, hm, kagiAssistantTry, hms, htok,
    hck, modelIncluded, hin, htr, hok, hmj, hparse, hst, hrep, isDoneStr,
    jsTruthyOpt, jsTruthy]
  simp [hp]

/-- Witness for C10 at a concrete input: a streamed response carrying the
message document with state "done" and an empty reply string makes the call
return the response-not-in-expected-format error text. -/
theorem empty_reply_not_expected_format_witness :
    (kagiAssistant (AssistantArgs.mk "hi" true (some "a") true "markdown")
      (Env.mk (some "tok") (some "ck") (some "a") none)
      (fun _ => Except.ok (HttpResponse.mk true 200 "OK"
        "new_message.json: \x7b\"state\":\"done\",\"reply\":\"\"\x7d"))
      (fun s => if s = "\x7b\"state\":\"done\",\"reply\":\"\"\x7d" then
        some (Json.obj [("state", Json.str "done"), ("reply", Json.str "")])
      else none) "u" Json.null).2 =
      Except.ok (ToolResult.mk [ContentItem.mk "text"
        (formatError "Assistant response not in expected format")]) :=
  empty_reply_not_expected_format _ _ _ _ _ _ "a" ["a"]
    (HttpResponse.mk true 200 "OK"
      "new_message.json: \x7b\"state\":\"done\",\"reply\":\"\"\x7d")
    "\x7b\"state\":\"done\",\"reply\":\"\"\x7d"
    (Json.obj [("state", Json.str "done"), ("reply", Json.str "")])
    (by decide) rfl (by rfl) rfl rfl (by decide) (fun _ => rfl) rfl (by rfl)
    (by rfl) (by rfl) (by rfl)
